import Mathlib

/-!
Shallow embedding of `src/pages/iou/MoneyRequestModal.js` (Expensify money
request modal wizard).

The component is a three-step wizard (amount → participants → confirm).  Its
local state consists of `previousStepIndex`, `currentStepIndex`, the draft
`participants` list and the draft `amount` string; the step sequence is derived
from the number of participants on the report passed via the route.  Navigation
callbacks (`navigateToStep`, `navigateToPreviousStep`, `navigateToNextStep`),
the animation `direction` memo, the effect reacting to the completion of an
in-flight IOU transaction, and the submission dispatchers (`sendMoney`,
`createTransaction`) are modelled below as pure functions over that state.

JavaScript numbers that stand for step indices are modelled as `Int` (the
callbacks receive arbitrary, possibly negative, numbers).  The numeric coercion
of the draft amount string and `Math.round` are modelled over `ℚ` with exact
decimal values.
-/

namespace MoneyRequestModal

/-- A participant view-model.  Only the `login` field is ever inspected by the
logic modelled here (the confirm page filter); the remaining display fields of
the view-model do not influence any modelled operation and are omitted. -/
structure Participant where
  login : String
deriving DecidableEq, Repr

/-- The report passed via the route; only its participant logins matter to the
modelled logic (`steps` derivation) and it is forwarded opaquely to actions. -/
structure Report where
  participants : List String
deriving DecidableEq, Repr

/-- The externally owned IOU draft view-state observed via Onyx:
`creatingIOUTransaction` (in-flight flag) and `error`. -/
structure IouState where
  creatingIOUTransaction : Bool
  error : Bool
deriving DecidableEq, Repr

/-- `Steps.IOUAmount` from the source. -/
def stepIOUAmount : String := "iou.amount"

/-- `Steps.IOUParticipants` from the source. -/
def stepIOUParticipants : String := "iou.participants"

/-- `Steps.IOUConfirm` from the source. -/
def stepIOUConfirm : String := "iou.confirm"

/-- The memoized `steps` array:
`reportParticipants.length ? [Steps.IOUAmount, Steps.IOUConfirm]
                           : [Steps.IOUAmount, Steps.IOUParticipants, Steps.IOUConfirm]`,
parameterised by `reportParticipants.length`. -/
def steps (reportParticipantsLength : Nat) : List String :=
  if reportParticipantsLength ≠ 0 then [stepIOUAmount, stepIOUConfirm]
  else [stepIOUAmount, stepIOUParticipants, stepIOUConfirm]

/-- Helper for `indexOf`: scan with the current position. -/
def indexOfAux : List String → String → Int → Int
  | [], _, _ => -1
  | y :: ys, x, i => if y = x then i else indexOfAux ys x (i + 1)

/-- Underscore's `_.indexOf(list, value)`: index of the first occurrence,
`-1` when absent. -/
def indexOf (l : List String) (x : String) : Int :=
  indexOfAux l x 0

/-- The component's local wizard state: the two step indices plus the local
drafts (`participants`, `amount`). -/
structure WizardState where
  previousStepIndex : Int
  currentStepIndex : Int
  participants : List Participant
  amount : String
deriving DecidableEq, Repr

/-- The initial local state after mount: both indices `0`, amount `''`;
participants seeded from the report/personal-details derivation. -/
def initialWizardState (participantsWithDetails : List Participant) : WizardState :=
  { previousStepIndex := 0
    currentStepIndex := 0
    participants := participantsWithDetails
    amount := "" }

/-- `navigateToStep(stepIndex)` from the source:

```js
if (stepIndex < 0 || stepIndex > steps.length) { return; }
if (currentStepIndex === stepIndex) { return; }
setPreviousStepIndex(currentStepIndex);
setCurrentStepIndex(stepIndex);
```

Note the guard is `stepIndex > steps.length`, so `stepIndex == steps.length`
is accepted. -/
def navigateToStep (reportParticipantsLength : Nat) (s : WizardState) (stepIndex : Int) :
    WizardState :=
  if stepIndex < 0 ∨ stepIndex > ((steps reportParticipantsLength).length : Int) then s
  else if s.currentStepIndex = stepIndex then s
  else { s with previousStepIndex := s.currentStepIndex, currentStepIndex := stepIndex }

/-- `navigateToPreviousStep()` from the source:

```js
if (currentStepIndex <= 0) { return; }
setPreviousStepIndex(currentStepIndex);
setCurrentStepIndex(currentStepIndex - 1);
``` -/
def navigateToPreviousStep (s : WizardState) : WizardState :=
  if s.currentStepIndex ≤ 0 then s
  else { s with previousStepIndex := s.currentStepIndex,
                currentStepIndex := s.currentStepIndex - 1 }

/-- `navigateToNextStep()` from the source:

```js
if (currentStepIndex >= steps.length - 1) { return; }
const confirmIndex = _.indexOf(steps, Steps.IOUConfirm);
if (previousStepIndex === confirmIndex) { navigateToStep(confirmIndex); return; }
setPreviousStepIndex(currentStepIndex);
setCurrentStepIndex(currentStepIndex + 1);
``` -/
def navigateToNextStep (reportParticipantsLength : Nat) (s : WizardState) : WizardState :=
  let sts := steps reportParticipantsLength
  if s.currentStepIndex ≥ (sts.length : Int) - 1 then s
  else
    let confirmIndex := indexOf sts stepIOUConfirm
    if s.previousStepIndex = confirmIndex then navigateToStep reportParticipantsLength s confirmIndex
    else { s with previousStepIndex := s.currentStepIndex,
                  currentStepIndex := s.currentStepIndex + 1 }

/-- The animation direction values `'in'` / `'out'` returned by the `direction`
memo (`null` is modelled as `Option.none`). -/
inductive Direction where
  | dirIn
  | dirOut
deriving DecidableEq, Repr

/-- The `direction` memo from the source, as a function of
`(previousStepIndex, currentStepIndex)` and the active step sequence:

```js
const amountIndex = _.indexOf(steps, Steps.IOUAmount);
const confirmIndex = _.indexOf(steps, Steps.IOUConfirm);
if (previousStepIndex === confirmIndex && currentStepIndex === amountIndex) { return 'in'; }
if (previousStepIndex === amountIndex && currentStepIndex === confirmIndex) { return 'out'; }
if (previousStepIndex < currentStepIndex) { return 'in'; }
if (previousStepIndex > currentStepIndex) { return 'out'; }
if (previousStepIndex === currentStepIndex) { return null; }
``` -/
def direction (reportParticipantsLength : Nat) (previousStepIndex currentStepIndex : Int) :
    Option Direction :=
  let sts := steps reportParticipantsLength
  let amountIndex := indexOf sts stepIOUAmount
  let confirmIndex := indexOf sts stepIOUConfirm
  if previousStepIndex = confirmIndex ∧ currentStepIndex = amountIndex then some Direction.dirIn
  else if previousStepIndex = amountIndex ∧ currentStepIndex = confirmIndex then
    some Direction.dirOut
  else if previousStepIndex < currentStepIndex then some Direction.dirIn
  else if previousStepIndex > currentStepIndex then some Direction.dirOut
  else none

/-- State carried across renders for the transaction-completion reaction: the
`prevCreatingIOUTransactionStatusRef` ref plus the wizard state. -/
structure RenderState where
  prevCreating : Bool
  wizard : WizardState
deriving DecidableEq, Repr

/-- The transaction-completion `useEffect` body from the source, as a function
of the observed `iou` snapshot, the previous render's in-flight flag and the
wizard state.  Returns the updated wizard state and whether
`Navigation.dismissModal()` was requested:

```js
if (!prevCreatingIOUTransactionStatusRef.current || lodashGet(props.iou, 'creatingIOUTransaction')) { return; }
if (lodashGet(props.iou, 'error') === true) { setCurrentStepIndex(0); }
else { Navigation.dismissModal(); }
``` -/
def transactionCompletionEffect (iou : IouState) (prevCreating : Bool) (s : WizardState) :
    WizardState × Bool :=
  if !prevCreating || iou.creatingIOUTransaction then (s, false)
  else if iou.error then ({ s with currentStepIndex := 0 }, false)
  else (s, true)

/-- One render observing a fresh `iou` snapshot: the transaction-completion
effect runs, then the bookkeeping effect snapshots the current in-flight flag
into the ref.  Returns the next `RenderState` and whether dismissal was
requested during this render. -/
def renderStep (rs : RenderState) (iou : IouState) : RenderState × Bool :=
  let res := transactionCompletionEffect iou rs.prevCreating rs.wizard
  ({ prevCreating := iou.creatingIOUTransaction, wizard := res.1 }, res.2)

/-- Number of renders, over a sequence of observed `iou` snapshots, in which
the transaction-completion reaction fired (took either of its two branches
past the guard). -/
def fireCount (rs : RenderState) : List IouState → Nat
  | [] => 0
  | iou :: rest =>
      (if rs.prevCreating && !iou.creatingIOUTransaction then 1 else 0)
      + fireCount (renderStep rs iou).1 rest

/-- Number of falling edges (`true` followed by `false`) in a boolean trace. -/
def fallingEdgeCount : List Bool → Nat
  | [] => 0
  | [_] => 0
  | a :: b :: rest => (if a && !b then 1 else 0) + fallingEdgeCount (b :: rest)

/-- A user-driven or store-driven event in the life of the mounted modal:
the three navigation callbacks (with an arbitrary JS number for
`navigateToStep`) and a render observing a fresh `iou` snapshot (which runs
the transaction-completion reaction). -/
inductive WizardOp where
  | navStep (stepIndex : Int)
  | navNext
  | navPrev
  | render (iou : IouState)
deriving DecidableEq, Repr

/-- Apply one event to the cross-render state. -/
def applyOp (reportParticipantsLength : Nat) (rs : RenderState) : WizardOp → RenderState
  | WizardOp.navStep i => { rs with wizard := navigateToStep reportParticipantsLength rs.wizard i }
  | WizardOp.navNext => { rs with wizard := navigateToNextStep reportParticipantsLength rs.wizard }
  | WizardOp.navPrev => { rs with wizard := navigateToPreviousStep rs.wizard }
  | WizardOp.render iou => (renderStep rs iou).1

/-- Run a sequence of events from a given state. -/
def runOps (reportParticipantsLength : Nat) (rs : RenderState) : List WizardOp → RenderState
  | [] => rs
  | op :: rest => runOps reportParticipantsLength (applyOp reportParticipantsLength rs op) rest

/-- The cross-render state right after mount: indices `0`, empty amount, the
ref initialised from the initially observed in-flight flag. -/
def initialRenderState (initialCreating : Bool) (participantsWithDetails : List Participant) :
    RenderState :=
  { prevCreating := initialCreating
    wizard := initialWizardState participantsWithDetails }

/-- Digit list to natural number, most significant first. -/
def digitsToNat (cs : List Char) : Nat :=
  cs.foldl (fun a c => a * 10 + (Char.toNat c - Char.toNat '0')) 0

/-- Modelled from the spec: the JavaScript numeric coercion applied to the
draft amount string (`amount * 100` coerces `amount` with `Number(...)`); the
coercion itself is host-language behaviour, not code under `src/`.  The spec
describes the conversion as "multiplying by 100 and rounding" the decimal
draft value, so a plain unsigned decimal literal `digits[.digits]` is parsed
to its exact rational value; any other shape yields `none` (JS `NaN`).
Binary floating point is not modelled; on the concrete literals considered
here the float64 computation agrees with the exact value. -/
def parseDecimal (s : String) : Option ℚ :=
  let cs := s.toList
  let intPart := cs.takeWhile (fun c => c ≠ '.')
  let rest := cs.dropWhile (fun c => c ≠ '.')
  match rest with
  | [] =>
      if intPart ≠ [] ∧ intPart.all Char.isDigit then some ((digitsToNat intPart : ℚ))
      else none
  | _ :: frac =>
      if (intPart ≠ [] ∨ frac ≠ []) ∧ intPart.all Char.isDigit ∧ frac.all Char.isDigit then
        some ((digitsToNat intPart : ℚ) + (digitsToNat frac : ℚ) / ((10 : ℚ) ^ frac.length))
      else none

/-- `Math.round(x)` for a rational: `⌊x + 1/2⌋` (JS rounds half toward `+∞`),
computed via flooring integer division. -/
def mathRound (q : ℚ) : Int :=
  Int.fdiv (q + 1 / 2).num ((q + 1 / 2).den : Int)

/-- `Math.round(amount * 100)`: the minor-unit conversion applied by
`sendMoney` and by the single-request branch of `createTransaction`;
`none` models `NaN` from a non-numeric draft string. -/
def toMinorUnits (amount : String) : Option Int :=
  (parseDecimal amount).map (fun q => mathRound (q * 100))

/-- `CONST.IOU.PAYMENT_TYPE.ELSEWHERE`.  Modelled from the spec: the constant
lives outside `src/`; the three payment rails are distinct string tags. -/
def PAYMENT_TYPE_ELSEWHERE : String := "Elsewhere"

/-- `CONST.IOU.PAYMENT_TYPE.PAYPAL_ME`.  Modelled from the spec: see
`PAYMENT_TYPE_ELSEWHERE`. -/
def PAYMENT_TYPE_PAYPAL_ME : String := "PayPal.me"

/-- `CONST.IOU.PAYMENT_TYPE.EXPENSIFY`.  Modelled from the spec: see
`PAYMENT_TYPE_ELSEWHERE`. -/
def PAYMENT_TYPE_EXPENSIFY : String := "Expensify"

/-- The external send-money actions (`IOU.sendMoneyElsewhere`,
`IOU.sendMoneyViaPaypal`, `IOU.sendMoneyWithWallet`) with the arguments the
component passes: report, amount in minor units, currency, trimmed comment,
current user login, `participants[0]` (`none` models JS `undefined` on an
empty list). -/
inductive SendAction where
  | sendMoneyElsewhere (report : Report) (amountInDollars : Option Int)
      (currency : Option String) (comment : String) (login : String)
      (participant : Option Participant)
  | sendMoneyViaPaypal (report : Report) (amountInDollars : Option Int)
      (currency : Option String) (comment : String) (login : String)
      (participant : Option Participant)
  | sendMoneyWithWallet (report : Report) (amountInDollars : Option Int)
      (currency : Option String) (comment : String) (login : String)
      (participant : Option Participant)
deriving DecidableEq, Repr

/-- `sendMoney(paymentMethodType)` from the source, returning the dispatched
action (`none` when no recognized payment type matched):

```js
const amountInDollars = Math.round(amount * 100);
const currency = props.iou.selectedCurrencyCode;
const trimmedComment = props.iou.comment.trim();
const participant = participants[0];
if (paymentMethodType === CONST.IOU.PAYMENT_TYPE.ELSEWHERE) { IOU.sendMoneyElsewhere(...); return; }
if (paymentMethodType === CONST.IOU.PAYMENT_TYPE.PAYPAL_ME) { IOU.sendMoneyViaPaypal(...); return; }
if (paymentMethodType === CONST.IOU.PAYMENT_TYPE.EXPENSIFY) { IOU.sendMoneyWithWallet(...); }
``` -/
def sendMoney (report : Report) (amount : String) (selectedCurrencyCode : Option String)
    (comment : String) (login : String) (participants : List Participant)
    (paymentMethodType : String) : Option SendAction :=
  let amountInDollars := toMinorUnits amount
  let trimmedComment := comment.trim
  let participant := participants.head?
  if paymentMethodType = PAYMENT_TYPE_ELSEWHERE then
    some (SendAction.sendMoneyElsewhere report amountInDollars selectedCurrencyCode trimmedComment
      login participant)
  else if paymentMethodType = PAYMENT_TYPE_PAYPAL_ME then
    some (SendAction.sendMoneyViaPaypal report amountInDollars selectedCurrencyCode trimmedComment
      login participant)
  else if paymentMethodType = PAYMENT_TYPE_EXPENSIFY then
    some (SendAction.sendMoneyWithWallet report amountInDollars selectedCurrencyCode trimmedComment
      login participant)
  else none

/-- Modelled from the spec: `CONST.REGEX.NUMBER.test(reportID)` — the regular
expression constant lives outside `src/`; the spec calls it the test for "a
valid numeric string", modelled as a nonempty all-digit string. -/
def isNumericString (s : String) : Bool :=
  s.length ≠ 0 && s.toList.all Char.isDigit

/-- The external transaction actions (`IOU.splitBill`,
`IOU.splitBillAndOpenReport`, `IOU.requestMoney`) with the arguments the
component passes.  Note the split actions receive the raw draft `amount`
string while `requestMoney` receives the minor-unit integer, exactly as in
the source. -/
inductive TransactionAction where
  | splitBill (participants : List Participant) (login : String) (amount : String)
      (comment : String) (currency : Option String) (locale : String) (reportID : String)
  | splitBillAndOpenReport (participants : List Participant) (login : String) (amount : String)
      (comment : String) (currency : Option String) (locale : String)
  | requestMoney (report : Report) (amount : Option Int) (currency : Option String)
      (login : String) (participant : Option Participant) (comment : String)
deriving DecidableEq, Repr

/-- `createTransaction(selectedParticipants)` from the source, returning the
dispatched action:

```js
const reportID = lodashGet(props.route, 'params.reportID', '');
const trimmedComment = props.iou.comment.trim();
if (props.hasMultipleParticipants && CONST.REGEX.NUMBER.test(reportID)) { IOU.splitBill(...); return; }
if (props.hasMultipleParticipants) { IOU.splitBillAndOpenReport(...); return; }
IOU.requestMoney(props.report, Math.round(amount * 100), ..., selectedParticipants[0], ...);
``` -/
def createTransaction (hasMultipleParticipants : Bool) (routeReportID : String) (login : String)
    (amount : String) (comment : String) (selectedCurrencyCode : Option String)
    (preferredLocale : String) (report : Report) (selectedParticipants : List Participant) :
    TransactionAction :=
  let trimmedComment := comment.trim
  if hasMultipleParticipants && isNumericString routeReportID then
    TransactionAction.splitBill selectedParticipants login amount trimmedComment
      selectedCurrencyCode preferredLocale routeReportID
  else if hasMultipleParticipants then
    TransactionAction.splitBillAndOpenReport selectedParticipants login amount trimmedComment
      selectedCurrencyCode preferredLocale
  else
    TransactionAction.requestMoney report (toMinorUnits amount) selectedCurrencyCode login
      selectedParticipants.head? trimmedComment

/-- Discriminator: is the dispatched action `IOU.splitBill`? -/
def TransactionAction.isSplitBill : TransactionAction → Bool
  | TransactionAction.splitBill _ _ _ _ _ _ _ => true
  | _ => false

/-- Discriminator: is the dispatched action `IOU.splitBillAndOpenReport`? -/
def TransactionAction.isSplitBillAndOpenReport : TransactionAction → Bool
  | TransactionAction.splitBillAndOpenReport _ _ _ _ _ _ => true
  | _ => false

/-- Discriminator: is the dispatched action `IOU.requestMoney`? -/
def TransactionAction.isRequestMoney : TransactionAction → Bool
  | TransactionAction.requestMoney _ _ _ _ _ _ => true
  | _ => false

/-- C3: every call to `createTransaction` dispatches exactly one of the three
actions (the model returns a single `TransactionAction`), chosen in priority
order: `splitBill` exactly when multi-participant mode is on and the
route-supplied report id is a numeric string; otherwise
`splitBillAndOpenReport` exactly when multi-participant mode is on; otherwise
`requestMoney` against the current report with the single participant
`selectedParticipants[0]`. -/
theorem c3_createTransaction_dispatch (hasMultipleParticipants : Bool)
    (routeReportID login amount comment : String) (selectedCurrencyCode : Option String)
    (preferredLocale : String) (report : Report) (selectedParticipants : List Participant) :
    ((createTransaction hasMultipleParticipants routeReportID login amount comment
        selectedCurrencyCode preferredLocale report selectedParticipants).isSplitBill
      = (hasMultipleParticipants && isNumericString routeReportID))
    ∧ ((createTransaction hasMultipleParticipants routeReportID login amount comment
        selectedCurrencyCode preferredLocale report selectedParticipants).isSplitBillAndOpenReport
      = (hasMultipleParticipants && !(isNumericString routeReportID)))
    ∧ ((createTransaction hasMultipleParticipants routeReportID login amount comment
        selectedCurrencyCode preferredLocale report selectedParticipants).isRequestMoney
      = !hasMultipleParticipants)
    ∧ (createTransaction false routeReportID login amount comment
        selectedCurrencyCode preferredLocale report selectedParticipants
      = TransactionAction.requestMoney report (toMinorUnits amount) selectedCurrencyCode login
          selectedParticipants.head? comment.trim) := by
  cases hasMultipleParticipants <;> by_cases h : isNumericString routeReportID <;>
    simp [createTransaction, h, TransactionAction.isSplitBill,
      TransactionAction.isSplitBillAndOpenReport, TransactionAction.isRequestMoney]

/-- C4: `sendMoney(paymentMethodType)` dispatches an action exactly when the
payment method type is one of the three recognized rails, in which case the
matching action fires with the participant `participants[0]`; every other
payment method type yields no dispatched action and no error (the model is a
total function returning `none`). -/
theorem c4_sendMoney_dispatch (report : Report) (amount : String)
    (selectedCurrencyCode : Option String) (comment login : String)
    (participants : List Participant) :
    (∀ paymentMethodType : String,
      (sendMoney report amount selectedCurrencyCode comment login participants
          paymentMethodType).isSome
        = (paymentMethodType == PAYMENT_TYPE_ELSEWHERE
            || paymentMethodType == PAYMENT_TYPE_PAYPAL_ME
            || paymentMethodType == PAYMENT_TYPE_EXPENSIFY))
    ∧ (sendMoney report amount selectedCurrencyCode comment login participants
        PAYMENT_TYPE_ELSEWHERE
      = some (SendAction.sendMoneyElsewhere report (toMinorUnits amount) selectedCurrencyCode
          comment.trim login participants.head?))
    ∧ (sendMoney report amount selectedCurrencyCode comment login participants
        PAYMENT_TYPE_PAYPAL_ME
      = some (SendAction.sendMoneyViaPaypal report (toMinorUnits amount) selectedCurrencyCode
          comment.trim login participants.head?))
    ∧ (sendMoney report amount selectedCurrencyCode comment login participants
        PAYMENT_TYPE_EXPENSIFY
      = some (SendAction.sendMoneyWithWallet report (toMinorUnits amount) selectedCurrencyCode
          comment.trim login participants.head?)) := by
  refine ⟨?_, ?_, ?_, ?_⟩
  · intro paymentMethodType
    simp only [sendMoney]
    split_ifs with h1 h2 h3 <;> simp_all [beq_iff_eq]
  · simp [sendMoney]
  · simp [sendMoney, PAYMENT_TYPE_PAYPAL_ME, PAYMENT_TYPE_ELSEWHERE]
  · simp [sendMoney, PAYMENT_TYPE_EXPENSIFY, PAYMENT_TYPE_ELSEWHERE, PAYMENT_TYPE_PAYPAL_ME]

/-- C5: over every trace of observed `iou` snapshots, the transaction-completion
reaction fires exactly once per falling edge of the in-flight flag (previous
render's flag `true`, current flag `false`) and never while the flag is rising
or holding steady; and on each render its behaviour is: past the falling-edge
guard, if the draft's error flag is true it sets `currentStepIndex` to `0`,
otherwise it requests dismissal of the modal. -/
theorem c5_transaction_completion_edges :
    (∀ (rs : RenderState) (ious : List IouState),
      fireCount rs ious
        = fallingEdgeCount (rs.prevCreating :: ious.map IouState.creatingIOUTransaction))
    ∧ (∀ (iou : IouState) (prevCreating : Bool) (s : WizardState),
      transactionCompletionEffect iou prevCreating s
        = if prevCreating && !iou.creatingIOUTransaction then
            (if iou.error then ({ s with currentStepIndex := 0 }, false) else (s, true))
          else (s, false)) := by
  constructor
  · intro rs ious
    induction ious generalizing rs with
    | nil => rfl
    | cons iou rest ih =>
        simp only [fireCount, List.map, fallingEdgeCount]
        rw [ih]
        rfl
  · intro iou prevCreating s
    obtain ⟨creating, error⟩ := iou
    cases prevCreating <;> cases creating <;> cases error <;> rfl

end MoneyRequestModal

namespace MoneyRequestModal

theorem steps_length (rpl : Nat) : (steps rpl).length = if rpl ≠ 0 then 2 else 3 := by
  unfold steps; split <;> rfl

theorem two_le_steps_length (rpl : Nat) : 2 ≤ (steps rpl).length := by
  rw [steps_length]; split <;> omega

theorem indexOf_confirm (rpl : Nat) :
    indexOf (steps rpl) stepIOUConfirm = ((steps rpl).length : Int) - 1 := by
  by_cases h : rpl ≠ 0 <;> simp [steps, h] <;> decide

theorem indexOf_amount (rpl : Nat) :
    indexOf (steps rpl) stepIOUAmount = 0 := by
  by_cases h : rpl ≠ 0 <;> simp [steps, h] <;> decide

theorem navigateToStep_bounds (rpl : Nat) (s : WizardState) (i : Int)
    (h : 0 ≤ s.currentStepIndex ∧ s.currentStepIndex ≤ ((steps rpl).length : Int)) :
    0 ≤ (navigateToStep rpl s i).currentStepIndex ∧
      (navigateToStep rpl s i).currentStepIndex ≤ ((steps rpl).length : Int) := by
  unfold navigateToStep
  split_ifs with h1 h2
  · exact h
  · exact h
  · simp only []
    omega

theorem navigateToNextStep_bounds (rpl : Nat) (s : WizardState)
    (h : 0 ≤ s.currentStepIndex ∧ s.currentStepIndex ≤ ((steps rpl).length : Int)) :
    0 ≤ (navigateToNextStep rpl s).currentStepIndex ∧
      (navigateToNextStep rpl s).currentStepIndex ≤ ((steps rpl).length : Int) := by
  simp only [navigateToNextStep]
  split_ifs with h1 h2
  · exact h
  · exact navigateToStep_bounds rpl s _ h
  · simp only []
    omega

theorem navigateToPreviousStep_bounds (rpl : Nat) (s : WizardState)
    (h : 0 ≤ s.currentStepIndex ∧ s.currentStepIndex ≤ ((steps rpl).length : Int)) :
    0 ≤ (navigateToPreviousStep s).currentStepIndex ∧
      (navigateToPreviousStep s).currentStepIndex ≤ ((steps rpl).length : Int) := by
  unfold navigateToPreviousStep
  split_ifs with h1
  · exact h
  · simp only []
    omega

theorem renderStep_bounds (rpl : Nat) (rs : RenderState) (iou : IouState)
    (h : 0 ≤ rs.wizard.currentStepIndex ∧
      rs.wizard.currentStepIndex ≤ ((steps rpl).length : Int)) :
    0 ≤ (renderStep rs iou).1.wizard.currentStepIndex ∧
      (renderStep rs iou).1.wizard.currentStepIndex ≤ ((steps rpl).length : Int) := by
  simp only [renderStep, transactionCompletionEffect]
  split_ifs with h1 h2
  · exact h
  · simp only []
    omega
  · exact h

theorem applyOp_bounds (rpl : Nat) (rs : RenderState) (op : WizardOp)
    (h : 0 ≤ rs.wizard.currentStepIndex ∧
      rs.wizard.currentStepIndex ≤ ((steps rpl).length : Int)) :
    0 ≤ (applyOp rpl rs op).wizard.currentStepIndex ∧
      (applyOp rpl rs op).wizard.currentStepIndex ≤ ((steps rpl).length : Int) := by
  cases op with
  | navStep i => exact navigateToStep_bounds rpl rs.wizard i h
  | navNext => exact navigateToNextStep_bounds rpl rs.wizard h
  | navPrev => exact navigateToPreviousStep_bounds rpl rs.wizard h
  | render iou => exact renderStep_bounds rpl rs iou h

theorem runOps_bounds (rpl : Nat) (rs : RenderState) (ops : List WizardOp)
    (h : 0 ≤ rs.wizard.currentStepIndex ∧
      rs.wizard.currentStepIndex ≤ ((steps rpl).length : Int)) :
    0 ≤ (runOps rpl rs ops).wizard.currentStepIndex ∧
      (runOps rpl rs ops).wizard.currentStepIndex ≤ ((steps rpl).length : Int) := by
  induction ops generalizing rs with
  | nil => exact h
  | cons op rest ih => exact ih (applyOp rpl rs op) (applyOp_bounds rpl rs op h)

/-- C1 counterexample: the claimed invariant `currentStepIndex < length(stepSequence)`
fails on a reachable state.  With one report participant the step sequence is
`[Amount, Confirm]` of length 2, and from the initial state the single call
`navigateToStep(2)` is accepted (the guard rejects only `stepIndex > steps.length`),
setting `currentStepIndex` to `2 = length(stepSequence)`. -/
theorem c1_counterexample :
    ¬ ((runOps 1 (initialRenderState false []) [WizardOp.navStep 2]).wizard.currentStepIndex <
        (((steps 1).length : Int))) := by
  decide

/-- C1 (amended): for every sequence of navigation and reaction operations from
the initial state, `0 ≤ currentStepIndex ≤ length(stepSequence)` holds; the
upper bound `length(stepSequence)` itself is attainable (see the
counterexample) because `navigateToStep` rejects only indices strictly greater
than the length, but no operation can push the index beyond the length or
below 0. -/
theorem c1_step_index_bounds (rpl : Nat) (initialCreating : Bool)
    (participantsWithDetails : List Participant) (ops : List WizardOp) :
    0 ≤ (runOps rpl (initialRenderState initialCreating participantsWithDetails) ops).wizard.currentStepIndex ∧
      (runOps rpl (initialRenderState initialCreating participantsWithDetails) ops).wizard.currentStepIndex ≤
        ((steps rpl).length : Int) := by
  refine runOps_bounds rpl _ ops ?_
  constructor
  · exact le_refl 0
  · exact Int.ofNat_nonneg _

/-- C2 counterexample: the claim predicts `navigateToStep(index)` is a no-op
whenever `index` is outside `[0, length(stepSequence))`; but with one report
participant (`length = 2`) the call `navigateToStep(2)` from the initial state
is not a no-op — it sets `currentStepIndex` to `2`. -/
theorem c2_counterexample :
    navigateToStep 1 (initialWizardState []) 2 ≠ initialWizardState [] := by
  decide

/-- C2 (amended): `navigateToStep(index)` is a no-op iff `index < 0`,
`index > length(stepSequence)` (rather than `index ≥ length`), or `index`
equals `currentStepIndex`; otherwise it sets `previousStepIndex` to the old
`currentStepIndex` and `currentStepIndex` to `index`. -/
theorem c2_navigateToStep_spec (rpl : Nat) (s : WizardState) (i : Int) :
    navigateToStep rpl s i =
      if i < 0 ∨ i > ((steps rpl).length : Int) ∨ s.currentStepIndex = i then s
      else { s with previousStepIndex := s.currentStepIndex, currentStepIndex := i } := by
  unfold navigateToStep
  split_ifs with h1 h2 h3 h4 h5 <;> first | rfl | omega

end MoneyRequestModal

namespace MoneyRequestModal

theorem parseDecimal_12_345 :
    parseDecimal "12.345" = some ((12 : ℚ) + (345 : ℚ) / 10 ^ 3) := by
  rfl

theorem toMinorUnits_12_345 : toMinorUnits "12.345" = some 1235 := by
  rw [toMinorUnits, parseDecimal_12_345, Option.map_some']
  have h : (((12 : ℚ) + (345 : ℚ) / 10 ^ 3) * 100) + 1 / 2 = (1235 : ℚ) := by norm_num
  rw [mathRound, h]
  norm_num

/-- C6: for the draft amount string `"12.345"`, the minor-unit conversion
`Math.round(amount * 100)` yields `1235` (round of `1234.5`), both as applied
by `sendMoney` (the dispatched `amountInDollars`) and by the single-request
branch of `createTransaction` (the amount passed to `requestMoney`). -/
theorem c6_minor_unit_conversion :
    toMinorUnits "12.345" = some 1235
    ∧ (∀ (report : Report) (selectedCurrencyCode : Option String) (comment login : String)
        (participants : List Participant),
      sendMoney report "12.345" selectedCurrencyCode comment login participants
          PAYMENT_TYPE_ELSEWHERE
        = some (SendAction.sendMoneyElsewhere report (some 1235) selectedCurrencyCode
            comment.trim login participants.head?))
    ∧ (∀ (routeReportID login comment : String) (selectedCurrencyCode : Option String)
        (preferredLocale : String) (report : Report) (selectedParticipants : List Participant),
      createTransaction false routeReportID login "12.345" comment selectedCurrencyCode
          preferredLocale report selectedParticipants
        = TransactionAction.requestMoney report (some 1235) selectedCurrencyCode login
            selectedParticipants.head? comment.trim) := by
  refine ⟨toMinorUnits_12_345, ?_, ?_⟩
  · intro report selectedCurrencyCode comment login participants
    simp [sendMoney, toMinorUnits_12_345]
  · intro routeReportID login comment selectedCurrencyCode preferredLocale report
      selectedParticipants
    simp [createTransaction, toMinorUnits_12_345]

/-- C7: `navigateToNextStep()` is a no-op when `currentStepIndex` is the last
index of the step sequence; otherwise, if `previousStepIndex` equals the
Confirm step's index it navigates directly to the Confirm index (setting
`previousStepIndex` to the old `currentStepIndex`) rather than advancing by
one, and in all remaining cases it sets `previousStepIndex` to the old
`currentStepIndex` and increments `currentStepIndex` by one. -/
theorem c7_navigateToNextStep_spec (rpl : Nat) (s : WizardState) :
    (s.currentStepIndex = ((steps rpl).length : Int) - 1 → navigateToNextStep rpl s = s)
    ∧ (s.currentStepIndex < ((steps rpl).length : Int) - 1 →
        s.previousStepIndex = indexOf (steps rpl) stepIOUConfirm →
        navigateToNextStep rpl s
          = { s with previousStepIndex := s.currentStepIndex,
                     currentStepIndex := indexOf (steps rpl) stepIOUConfirm })
    ∧ (s.currentStepIndex < ((steps rpl).length : Int) - 1 →
        s.previousStepIndex ≠ indexOf (steps rpl) stepIOUConfirm →
        navigateToNextStep rpl s
          = { s with previousStepIndex := s.currentStepIndex,
                     currentStepIndex := s.currentStepIndex + 1 }) := by
  have hconf := indexOf_confirm rpl
  have hlen := two_le_steps_length rpl
  refine ⟨?_, ?_, ?_⟩
  · intro h
    simp only [navigateToNextStep]
    rw [if_pos (by omega)]
  · intro h1 h2
    simp only [navigateToNextStep]
    rw [if_neg (by omega), if_pos h2]
    unfold navigateToStep
    rw [if_neg (by omega), if_neg (by omega)]
  · intro h1 h2
    simp only [navigateToNextStep]
    rw [if_neg (by omega), if_neg h2]

/-- C7 witness: with no report participants (3 steps, Confirm index 2), from
the state `(previousStepIndex, currentStepIndex) = (2, 0)` a call to
`navigateToNextStep` jumps directly to the Confirm index. -/
theorem c7_navigateToNextStep_spec_witness :
    navigateToNextStep 0 ⟨2, 0, [], ""⟩ = ⟨0, 2, [], ""⟩ :=
  (c7_navigateToNextStep_spec 0 ⟨2, 0, [], ""⟩).2.1 (by decide) (by decide)

/-- C8: the derived animation direction is: forward (`'in'`) when moving from
the Confirm index to the Amount index, backward (`'out'`) when moving from the
Amount index to the Confirm index, none (`null`) when the indices are equal,
and otherwise forward when `previous < current` and backward when
`previous > current`. -/
theorem c8_direction_spec (rpl : Nat) (previousStepIndex currentStepIndex : Int) :
    direction rpl previousStepIndex currentStepIndex
      = if previousStepIndex = indexOf (steps rpl) stepIOUConfirm ∧
            currentStepIndex = indexOf (steps rpl) stepIOUAmount then some Direction.dirIn
        else if previousStepIndex = indexOf (steps rpl) stepIOUAmount ∧
            currentStepIndex = indexOf (steps rpl) stepIOUConfirm then some Direction.dirOut
        else if previousStepIndex = currentStepIndex then none
        else if previousStepIndex < currentStepIndex then some Direction.dirIn
        else some Direction.dirOut := by
  simp only [direction]
  split_ifs <;> first | rfl | omega

/-- C9: when the transaction-completion reaction takes its error branch (the
in-flight flag fell and the error flag is true), it sets `currentStepIndex`
to `0` but leaves `previousStepIndex` unchanged at its prior value (so the
subsequent direction derivation is computed against the stale previous index),
and the amount and participants drafts are also unchanged. -/
theorem c9_error_branch_frame (rs : RenderState) (iou : IouState)
    (h1 : rs.prevCreating = true) (h2 : iou.creatingIOUTransaction = false)
    (h3 : iou.error = true) :
    ((renderStep rs iou).1.wizard.currentStepIndex = 0)
    ∧ ((renderStep rs iou).1.wizard.previousStepIndex = rs.wizard.previousStepIndex)
    ∧ ((renderStep rs iou).1.wizard.amount = rs.wizard.amount)
    ∧ ((renderStep rs iou).1.wizard.participants = rs.wizard.participants) := by
  simp [renderStep, transactionCompletionEffect, h1, h2, h3]

/-- C9 witness: a concrete falling-edge render with the error flag set resets
`currentStepIndex` to `0` and leaves `previousStepIndex`, amount and
participants untouched. -/
theorem c9_error_branch_frame_witness :
    ((renderStep ⟨true, ⟨1, 2, [⟨"a@b.c"⟩], "5"⟩⟩ ⟨false, true⟩).1.wizard.currentStepIndex = 0)
    ∧ ((renderStep ⟨true, ⟨1, 2, [⟨"a@b.c"⟩], "5"⟩⟩ ⟨false, true⟩).1.wizard.previousStepIndex
        = (⟨1, 2, [⟨"a@b.c"⟩], "5"⟩ : WizardState).previousStepIndex)
    ∧ ((renderStep ⟨true, ⟨1, 2, [⟨"a@b.c"⟩], "5"⟩⟩ ⟨false, true⟩).1.wizard.amount
        = (⟨1, 2, [⟨"a@b.c"⟩], "5"⟩ : WizardState).amount)
    ∧ ((renderStep ⟨true, ⟨1, 2, [⟨"a@b.c"⟩], "5"⟩⟩ ⟨false, true⟩).1.wizard.participants
        = (⟨1, 2, [⟨"a@b.c"⟩], "5"⟩ : WizardState).participants) :=
  c9_error_branch_frame ⟨true, ⟨1, 2, [⟨"a@b.c"⟩], "5"⟩⟩ ⟨false, true⟩ rfl rfl rfl

/-- C10: every navigation operation modifies at most `previousStepIndex` and
`currentStepIndex`: the amount draft and the participants list are unchanged
by every call to `navigateToStep`, `navigateToNextStep` and
`navigateToPreviousStep` (and the derived step sequence, a function of the
report's participant count only — which no navigation operation touches — is
unchanged as well). -/
theorem c10_navigation_frame (rpl : Nat) (s : WizardState) (i : Int) :
    ((navigateToStep rpl s i).amount = s.amount
      ∧ (navigateToStep rpl s i).participants = s.participants)
    ∧ ((navigateToNextStep rpl s).amount = s.amount
      ∧ (navigateToNextStep rpl s).participants = s.participants)
    ∧ ((navigateToPreviousStep s).amount = s.amount
      ∧ (navigateToPreviousStep s).participants = s.participants) := by
  refine ⟨?_, ?_, ?_⟩
  · unfold navigateToStep
    split_ifs <;> simp
  · simp only [navigateToNextStep]
    unfold navigateToStep
    split_ifs <;> simp
  · unfold navigateToPreviousStep
    split_ifs <;> simp

end MoneyRequestModal
